import Mathlib

/-!
Verification of the Matrix Orbital GLK19264 framebuffer/keypad driver
(src/matrixorbital.c), as a shallow embedding in Lean 4.

Conventions of the embedding:
* Bytes are `Nat` values; a C `u8` parameter is modelled by reducing
  modulo 256 where the C performs an implicit truncation.
* The I2C transport is external (Linux kernel).  It is modelled at its
  interface: `i2c_master_send` returns the number of bytes sent (equal to
  the requested length on success, a negative errno otherwise);
  `i2c_master_recv` with a 1-byte buffer returns 1 on success and a
  negative errno otherwise.  Those return values enter the model as
  explicit parameters of the functions that call them.
* Functions returning kernel error codes are modelled as `Int`-valued
  (0 or a positive count for success, a negative errno for failure).
-/

/-- EINVAL errno, as returned by the driver (`-EINVAL`). -/
def EINVAL : Int := -22

/-- Linux input keycodes used by the driver (from the kernel uapi headers). -/
def KEY_ESC : Nat := 1

def KEY_BACKSPACE : Nat := 14

def KEY_ENTER : Nat := 28

def KEY_UP : Nat := 103

def KEY_LEFT : Nat := 105

def KEY_RIGHT : Nat := 106

def KEY_DOWN : Nat := 108

/-- Panel width in pixels (`par->width = 192`). -/
def matrixorbital_width : Nat := 192

/-- Panel height in pixels (`par->height = 64`). -/
def matrixorbital_height : Nat := 64

/-- Size of the video memory in bytes: `width * height / 8 = 1536`. -/
def vmem_size : Nat := matrixorbital_width * matrixorbital_height / 8

/-- `matrixorbital_write_array`: sends `len` bytes over I2C and compares the
return of `i2c_master_send` (modelled by `sendRet`) to `len`; returns 0 on
full acknowledgement and -1 otherwise. -/
def matrixorbital_write_array (sendRet : Int) (len : Nat) : Int :=
  if sendRet = (len : Int) then 0 else -1

/-- `matrixorbital_read_param`: writes the command, sleeps, then reads one
byte.  `resp` is the byte sequence the device transfer yields (the C local
`data` receives its head); the recv layer returns 1 exactly when one byte is
transferred and a negative errno (`errno`) otherwise.  The C source returns
`(ret == 1) ? data : ret`. -/
def matrixorbital_read_param (resp : List Nat) (errno : Int) : Int :=
  let ret : Int := if resp.length = 1 then 1 else errno
  if ret = 1 then (resp.headD 0 : Int) else ret

/-- `reverse_bits_in_byte`: swap nibbles, then 2-bit groups, then adjacent
bits.  The C parameter is an `unsigned char`, hence the initial `% 256`. -/
def reverse_bits_in_byte (b : Nat) : Nat :=
  let b0 := b % 256
  let b1 := ((b0 &&& 0xF0) >>> 4) ||| ((b0 &&& 0x0F) <<< 4)
  let b2 := ((b1 &&& 0xCC) >>> 2) ||| ((b1 &&& 0x33) <<< 2)
  ((b2 &&& 0xAA) >>> 1) ||| ((b2 &&& 0x55) <<< 1)

/-- The byte array assembled and transmitted by
`matrixorbitalfb_update_display`: a 6-byte header
`[0xFE, 0x64, 0, 0, width, height]` followed by the `width*height/8`
video-memory bytes, each bit-reversed.  Reading the i-th video byte
(`*(vmem + i)`) is modelled by `mem.getD i 0`. -/
def matrixorbitalfb_update_display (mem : List Nat) : List Nat :=
  [0xFE, 0x64, 0, 0, matrixorbital_width, matrixorbital_height] ++
    (List.range vmem_size).map (fun i => reverse_bits_in_byte (mem.getD i 0))

/-- `matrixorbital_init`: the four init steps.  `txRet`, `modelRet`,
`autoRet`, `clearRet` are the results of the transmission-protocol select,
the model read, the auto-keypush disable and the clear screen.  The C code
ignores the first two results, assigns the third to `ret` and then
overwrites `ret` with the fourth; only the final value is tested. -/
def matrixorbital_init (txRet modelRet autoRet clearRet : Int) : Int :=
  let _ := txRet
  let _ := modelRet
  let _overwritten := autoRet
  let ret := clearRet
  if ret < 0 then ret else 0

/- ### Claim C7: bit reversal is an involution -/

set_option maxRecDepth 2048 in
/-- C7: for every byte b, applying `reverse_bits_in_byte` twice returns b. -/
theorem C7_reverse_bits_involution (b : Nat) (h : b < 256) :
    reverse_bits_in_byte (reverse_bits_in_byte b) = b := by
  revert b h
  decide

/-- Witness for C7 at b = 0xA7. -/
theorem C7_reverse_bits_involution_witness :
    reverse_bits_in_byte (reverse_bits_in_byte 0xA7) = 0xA7 :=
  C7_reverse_bits_involution 0xA7 (by decide)

/- ### Claim C5: read_param error behaviour -/

/-- C5: `matrixorbital_read_param` fails with a (negative) transport error
whenever the device transfer does not yield exactly one byte — in
particular a 2-byte response never yields a valid value — while a
successful 1-byte response of 0 is returned as the valid domain value 0,
which is not a transport failure. -/
theorem C5_read_param_errors (resp : List Nat) (errno : Int)
    (herr : errno < 0) :
    (resp.length ≠ 1 →
      matrixorbital_read_param resp errno = errno ∧
        matrixorbital_read_param resp errno < 0) ∧
      matrixorbital_read_param [0] errno = 0 ∧
        ¬ matrixorbital_read_param [0] errno < 0 := by
  refine ⟨?_, ?_, ?_⟩
  · intro hlen
    have hne : errno ≠ 1 := by omega
    constructor
    · simp [matrixorbital_read_param, hlen, hne]
    · simpa [matrixorbital_read_param, hlen, hne] using herr
  · simp [matrixorbital_read_param]
  · simp [matrixorbital_read_param]

/-- Witness for C5: a 2-byte response with errno -5. -/
theorem C5_read_param_errors_witness :
    matrixorbital_read_param [7, 9] (-5) = -5 ∧
      matrixorbital_read_param [7, 9] (-5) < 0 :=
  (C5_read_param_errors [7, 9] (-5) (by decide)).1 (by decide)

/- ### Claim C6: init fatality -/

/-- C6: session init succeeds exactly when the clear-screen command
succeeds, regardless of the outcomes of the first three (best-effort)
steps; in particular it succeeds when only the model-read step fails, and
the nonzero value it returns on clear-screen failure is what aborts
bring-up in `matrixorbital_probe`. -/
theorem C6_init_fatal_only_clear (txRet modelRet autoRet clearRet : Int) :
    (matrixorbital_init txRet modelRet autoRet clearRet = 0 ↔
      ¬ clearRet < 0) ∧
      (clearRet < 0 →
        matrixorbital_init txRet modelRet autoRet clearRet = clearRet) := by
  constructor
  · constructor
    · intro h hc
      simp [matrixorbital_init, if_pos hc] at h
      omega
    · intro hc
      simp [matrixorbital_init, if_neg hc]
  · intro hc
    simp [matrixorbital_init, if_pos hc]

/-- Witness for C6: model read fails, clear screen fails. -/
theorem C6_init_fatal_only_clear_witness :
    matrixorbital_init 0 (-1) 0 (-1) = -1 :=
  (C6_init_fatal_only_clear 0 (-1) 0 (-1)).2 (by decide)

/- ### Keypad poller -/

/-- The keycode translation switch of `matrixorbital_report_key`.  The C
local `keycode` is initialised to 0 and left at 0 (KEY_RESERVED) when no
case matches. -/
def matorb_keycode (c : Nat) : Nat :=
  if c = 0x41 then KEY_ESC
  else if c = 0x42 then KEY_UP
  else if c = 0x43 then KEY_RIGHT
  else if c = 0x44 then KEY_LEFT
  else if c = 0x45 then KEY_ENTER
  else if c = 0x47 then KEY_BACKSPACE
  else if c = 0x48 then KEY_DOWN
  else 0

/-- `matrixorbital_report_key`: emits `input_report_key` press then release
for the translated keycode (0 when unmapped), and one unknown-keycode
diagnostic exactly in the `default` branch of the switch — equivalently,
when the translated keycode is 0, since no mapped Linux keycode is 0.
Result: (raw input reports as (keycode, pressed) pairs, diagnostic count). -/
def matrixorbital_report_key (c : Nat) : List (Nat × Bool) × Nat :=
  let keycode := matorb_keycode c
  ([(keycode, true), (keycode, false)], if keycode = 0 then 1 else 0)

/-- The EV_KEY codes set in `keypad_dev->input->keybit` by
`matrixorbital_probe`. -/
def registered_keys : List Nat :=
  [KEY_ESC, KEY_BACKSPACE, KEY_ENTER, KEY_UP, KEY_LEFT, KEY_RIGHT, KEY_DOWN]

/-- Key events actually delivered by the Linux input core: `input_event`
drops EV_KEY codes not set in the device's `keybit`, so a report with
keycode 0 (KEY_RESERVED, never registered) reaches no handler. -/
def delivered (evs : List (Nat × Bool)) : List (Nat × Bool) :=
  evs.filter (fun e => registered_keys.contains e.1)

/-- `matrixorbital_keypad_poll`: one timer tick.  The argument is the
sequence of values that successive `matrixorbital_read_param` calls return
during this tick (negative = transport error).  Result: (raw input
reports, unknown-code diagnostics, number of read_param calls consumed).
The `[]` case is a modelling artefact: the loop issues a read on every
iteration, so a run never consumes past a stopping element. -/
def matrixorbital_keypad_poll : List Int → List (Nat × Bool) × Nat × Nat
  | [] => ([], 0, 0)
  | ret :: rest =>
    if ret < 0 then ([], 0, 1)
    else if ret = 0 then ([], 0, 1)
    else
      let rk := matrixorbital_report_key (ret.toNat &&& 0x7F)
      if ret.toNat &&& 0x80 ≠ 0 then
        let p := matrixorbital_keypad_poll rest
        (rk.1 ++ p.1, rk.2 + p.2.1, 1 + p.2.2)
      else (rk.1, rk.2, 1)

/-- Unmapped codes translate to keycode 0. -/
lemma matorb_keycode_eq_zero (c : Nat)
    (h : c ∉ [0x41, 0x42, 0x43, 0x44, 0x45, 0x47, 0x48]) :
    matorb_keycode c = 0 := by
  simp only [List.mem_cons, List.not_mem_nil, or_false, not_or] at h
  obtain ⟨h1, h2, h3, h4, h5, h6, h7⟩ := h
  simp [matorb_keycode, h1, h2, h3, h4, h5, h6, h7]

/-- Unfolding of the poll loop at a positive response. -/
lemma keypad_poll_cons_pos (r : Nat) (rest : List Int) (hpos : 0 < r) :
    matrixorbital_keypad_poll ((r : Int) :: rest) =
      (let rk := matrixorbital_report_key (r &&& 0x7F)
       if r &&& 0x80 ≠ 0 then
        let p := matrixorbital_keypad_poll rest
        (rk.1 ++ p.1, rk.2 + p.2.1, 1 + p.2.2)
       else (rk.1, rk.2, 1)) := by
  have h1 : ¬ ((r : Int) < 0) := by omega
  have h2 : ¬ ((r : Int) = 0) := by omega
  simp [matrixorbital_keypad_poll, h1, h2]

/- ### Claim C8: error or zero stops the tick -/

/-- C8: when the first read_param result of a tick is a transport error or
0, the tick stops after that single read with no report and no event. -/
theorem C8_error_or_zero_stops (r : Int) (rest : List Int)
    (h : r < 0 ∨ r = 0) :
    matrixorbital_keypad_poll (r :: rest) = ([], 0, 1) := by
  rcases h with h | h
  · simp [matrixorbital_keypad_poll, h]
  · subst h
    simp [matrixorbital_keypad_poll]

/-- Witness for C8: the poll sequence [0x00] yields zero events. -/
theorem C8_error_or_zero_stops_witness :
    matrixorbital_keypad_poll [0] = ([], 0, 1) :=
  C8_error_or_zero_stops 0 [] (Or.inr rfl)

/- ### Framebuffer write path -/

/-- The count truncation performed by `matrixorbitalfb_write`:
`if (count + p > total_size) count = total_size - p;`. -/
def trunc_count (total p count : Nat) : Nat :=
  if count + p > total then total - p else count

/-- `matrixorbitalfb_write`: raw write of `count` user bytes at offset `p`
into the video memory (`total_size = info->fix.smem_len = mem.length`).
`src i` is the i-th byte of the user buffer; `copy_from_user` is modelled
as succeeding (a failing copy returns -EFAULT before the flush and stores
only into the same in-bounds destination range, so it does not affect the
claims below).  Result: (new video memory, value returned to the caller,
wire frames flushed). -/
def matrixorbitalfb_write (mem : List Nat) (src : Nat → Nat) (p count : Nat) :
    List Nat × Int × List (List Nat) :=
  let total := mem.length
  if p > total then (mem, EINVAL, [])
  else
    let count := trunc_count total p count
    if count = 0 then (mem, EINVAL, [])
    else
      let mem2 := mem.take p ++ (List.range count).map src ++ mem.drop (p + count)
      (mem2, (count : Int), [matrixorbitalfb_update_display mem2])

/-- The wire frame always has 1542 bytes. -/
lemma update_display_length (mem : List Nat) :
    (matrixorbitalfb_update_display mem).length = 1542 := by
  simp [matrixorbitalfb_update_display, vmem_size, matrixorbital_width,
    matrixorbital_height]

/-- The wire frame always starts with the 6-byte header. -/
lemma update_display_take_6 (mem : List Nat) :
    (matrixorbitalfb_update_display mem).take 6 =
      [0xFE, 0x64, 0, 0, 192, 64] := by
  simp [matrixorbitalfb_update_display, matrixorbital_width,
    matrixorbital_height]

/- ### Claim C2: wire frame layout -/

/-- C2: for a pixel buffer of size W·H/8 = 1536, the encoded wire frame has
length 6 + 1536 = 1542, begins with the header [0xFE,0x64,0,0,192,64], and
the payload byte at offset 6+i is the bit-reversal of source byte i. -/
theorem C2_wire_frame (mem : List Nat) (hlen : mem.length = vmem_size) :
    vmem_size = 1536 ∧
      (matrixorbitalfb_update_display mem).length = 1542 ∧
      (matrixorbitalfb_update_display mem).take 6 =
        [0xFE, 0x64, 0, 0, 192, 64] ∧
      ∀ i, i < vmem_size →
        (matrixorbitalfb_update_display mem).get? (6 + i) =
          some (reverse_bits_in_byte (mem.getD i 0)) := by
  refine ⟨by decide, update_display_length mem, update_display_take_6 mem,
    fun i hi => ?_⟩
  rw [matrixorbitalfb_update_display]
  rw [List.get?_append_right (by simp)]
  simp
  exact ⟨i, by simp [List.getElem?_range, hi], rfl⟩

/-- Witness for C2 on the all-zero buffer. -/
theorem C2_wire_frame_witness :
    vmem_size = 1536 ∧
      (matrixorbitalfb_update_display (List.replicate 1536 0)).length = 1542 ∧
      (matrixorbitalfb_update_display (List.replicate 1536 0)).take 6 =
        [0xFE, 0x64, 0, 0, 192, 64] ∧
      ∀ i, i < vmem_size →
        (matrixorbitalfb_update_display (List.replicate 1536 0)).get? (6 + i) =
          some (reverse_bits_in_byte ((List.replicate 1536 0).getD i 0)) :=
  C2_wire_frame (List.replicate 1536 0)
    (by rw [List.length_replicate]; decide)

/- ### Claim C10: write bounds -/

/-- C10: a raw write at offset p with count bytes into a buffer of
total_size = mem.length bytes is rejected with EINVAL when p > total_size
(buffer unchanged), is truncated to total_size - p bytes when
p + count > total_size, is rejected with EINVAL when the resulting count
is zero (buffer unchanged); otherwise it returns the truncated count, and
in every case the buffer keeps its length and no position outside
[p, p + count) changes. -/
theorem C10_write_bounds (mem : List Nat) (src : Nat → Nat) (p count : Nat) :
    (count + p > mem.length →
      trunc_count mem.length p count = mem.length - p) ∧
      (p > mem.length →
        matrixorbitalfb_write mem src p count = (mem, EINVAL, [])) ∧
      (p ≤ mem.length → trunc_count mem.length p count = 0 →
        matrixorbitalfb_write mem src p count = (mem, EINVAL, [])) ∧
      (p ≤ mem.length → trunc_count mem.length p count ≠ 0 →
        (matrixorbitalfb_write mem src p count).2.1 =
          (trunc_count mem.length p count : Int)) ∧
      (matrixorbitalfb_write mem src p count).1.length = mem.length ∧
      (∀ i, i < p →
        (matrixorbitalfb_write mem src p count).1.get? i = mem.get? i) ∧
      ∀ i, p + trunc_count mem.length p count ≤ i →
        (matrixorbitalfb_write mem src p count).1.get? i = mem.get? i := by
  have htr : count + p > mem.length →
      trunc_count mem.length p count = mem.length - p := fun h => by
    simp [trunc_count, h]
  by_cases hp : p > mem.length
  · have hw : matrixorbitalfb_write mem src p count = (mem, EINVAL, []) := by
      simp [matrixorbitalfb_write, hp]
    exact ⟨htr, fun _ => hw, fun h _ => absurd hp (by omega),
      fun h _ => absurd hp (by omega), by rw [hw],
      fun i _ => by rw [hw], fun i _ => by rw [hw]⟩
  · have hple : p ≤ mem.length := by omega
    by_cases hc : trunc_count mem.length p count = 0
    · have hw : matrixorbitalfb_write mem src p count = (mem, EINVAL, []) := by
        simp [matrixorbitalfb_write, hp, hc]
      exact ⟨htr, fun h => absurd h hp, fun _ _ => hw,
        fun _ h => absurd hc h, by rw [hw], fun i _ => by rw [hw],
        fun i _ => by rw [hw]⟩
    · have hcnt : p + trunc_count mem.length p count ≤ mem.length := by
        rw [trunc_count]
        split <;> omega
      have hw : matrixorbitalfb_write mem src p count =
          (mem.take p ++
              (List.range (trunc_count mem.length p count)).map src ++
              mem.drop (p + trunc_count mem.length p count),
            ((trunc_count mem.length p count : Nat) : Int),
            [matrixorbitalfb_update_display
              (mem.take p ++
                (List.range (trunc_count mem.length p count)).map src ++
                mem.drop (p + trunc_count mem.length p count))]) := by
        simp [matrixorbitalfb_write, hp, hc]
      refine ⟨htr, fun h => absurd h hp, fun _ h => absurd h hc,
        fun _ _ => by rw [hw], ?_, ?_, ?_⟩
      · rw [hw]
        simp only [List.length_append, List.length_take, List.length_map,
          List.length_range, List.length_drop]
        omega
      · intro i hi
        rw [hw]
        rw [List.append_assoc, List.get?_append (by simp; omega),
          List.get?_take hi]
      · intro i hi
        rw [hw]
        rw [List.append_assoc, List.get?_append_right (by simp; omega)]
        rw [List.get?_append_right (by simp; omega)]
        rw [List.get?_drop]
        congr 1
        simp
        omega

/-- Witness for C10: total_size 4, offset 1, count 99 truncated to 3. -/
theorem C10_write_bounds_witness :
    (matrixorbitalfb_write [1, 2, 3, 4] (fun i => 10 + i) 1 99).2.1 = 3 := by
  simpa using
    (C10_write_bounds [1, 2, 3, 4] (fun i => 10 + i) 1 99).2.2.2.1
      (by decide) (by decide)

/- ### Drawing operations and flush scheduling -/

/-- One invocation of a drawing entry point of `matrixorbitalfb_ops`, or
one deferred-io timer expiry.  The generic drawing primitives
(`sys_fillrect`, `sys_copyarea`, `sys_imageblit`) are external (Linux
kernel); each is modelled by the in-place video-memory transformation it
performs. -/
inductive DrawOp where
  | fillrect (f : List Nat → List Nat)
  | copyarea (f : List Nat → List Nat)
  | imageblit (f : List Nat → List Nat)
  | fbwrite (src : Nat → Nat) (p count : Nat)
  | deferred_io

/-- Effect of one operation.  `matrixorbitalfb_fillrect`, `_copyarea` and
`_imageblit` mutate the buffer and then call
`matrixorbitalfb_update_display` unconditionally; `matrixorbitalfb_write`
does so on its success path; `matrixorbitalfb_deferred_io` (the timer
handler for mmap-dirtied pages) only calls
`matrixorbitalfb_update_display`.  Result: (new video memory, wire frames
flushed by this operation). -/
def applyOp (mem : List Nat) : DrawOp → List Nat × List (List Nat)
  | .fillrect f => (f mem, [matrixorbitalfb_update_display (f mem)])
  | .copyarea f => (f mem, [matrixorbitalfb_update_display (f mem)])
  | .imageblit f => (f mem, [matrixorbitalfb_update_display (f mem)])
  | .fbwrite src p count =>
    let w := matrixorbitalfb_write mem src p count
    (w.1, w.2.2)
  | .deferred_io => (mem, [matrixorbitalfb_update_display mem])

/-- Run a sequence of operations, collecting all flushed wire frames. -/
def runOps (mem : List Nat) : List DrawOp → List Nat × List (List Nat)
  | [] => (mem, [])
  | op :: rest =>
    let s := applyOp mem op
    let r := runOps s.1 rest
    (r.1, s.2 ++ r.2)

/-- An operation that is a drawing mutation: the deferred-io tick is not
one, an `fbwrite` mutates only when in bounds and nonempty (`total` is the
buffer length, preserved by every operation), and the drawing primitives
mutate in place, hence preserve the buffer length. -/
def drawMutation (total : Nat) : DrawOp → Prop
  | .fillrect f => ∀ m : List Nat, (f m).length = m.length
  | .copyarea f => ∀ m : List Nat, (f m).length = m.length
  | .imageblit f => ∀ m : List Nat, (f m).length = m.length
  | .fbwrite _ p count => p < total ∧ 0 < count
  | .deferred_io => False

/-- `matrixorbitalfb_write` never changes the buffer length. -/
lemma fbwrite_length (mem : List Nat) (src : Nat → Nat) (p count : Nat) :
    (matrixorbitalfb_write mem src p count).1.length = mem.length := by
  by_cases hp : p > mem.length
  · simp [matrixorbitalfb_write, hp]
  · by_cases hc : trunc_count mem.length p count = 0
    · simp [matrixorbitalfb_write, hp, hc]
    · have hcnt : p + trunc_count mem.length p count ≤ mem.length := by
        rw [trunc_count]
        split <;> omega
      simp only [matrixorbitalfb_write, if_neg hp, if_neg hc,
        List.length_append, List.length_take, List.length_map,
        List.length_range, List.length_drop]
      omega

/-- A successful `matrixorbitalfb_write` flushes exactly one frame: the
full new surface. -/
lemma fbwrite_flush_success (mem : List Nat) (src : Nat → Nat)
    (p count : Nat) (hp : p < mem.length) (hc : 0 < count) :
    (matrixorbitalfb_write mem src p count).2.2 =
      [matrixorbitalfb_update_display
        (matrixorbitalfb_write mem src p count).1] := by
  have hp2 : ¬ p > mem.length := by omega
  have hc2 : trunc_count mem.length p count ≠ 0 := by
    rw [trunc_count]
    split <;> omega
  simp [matrixorbitalfb_write, hp2, hc2]

/-- Every drawing mutation preserves the buffer length and flushes exactly
one frame: the full current (post-mutation) surface. -/
lemma applyOp_mutation (mem : List Nat) (op : DrawOp)
    (h : drawMutation mem.length op) :
    (applyOp mem op).1.length = mem.length ∧
      (applyOp mem op).2 =
        [matrixorbitalfb_update_display (applyOp mem op).1] := by
  cases op with
  | fillrect f => exact ⟨h mem, rfl⟩
  | copyarea f => exact ⟨h mem, rfl⟩
  | imageblit f => exact ⟨h mem, rfl⟩
  | fbwrite src p count =>
    exact ⟨fbwrite_length mem src p count,
      fbwrite_flush_success mem src p count h.1 h.2⟩
  | deferred_io => exact h.elim

/- ### Claim C1: flush coalescing (corrected) -/

/-- C1 counterexample: two fillrect mutations within one scheduler
interval (no deferred-io tick intervenes) produce two flush calls, not
one — each drawing entry point calls `matrixorbitalfb_update_display`
directly.  -/
theorem C1_counterexample :
    ¬ ((runOps (List.replicate vmem_size 0)
        [DrawOp.fillrect id, DrawOp.fillrect id]).2.length = 1) := by
  simp [runOps, applyOp]

/-- C1 amended: every drawing mutation (raw buffer write, rectangle fill,
area copy, image composition) triggers its own immediate flush carrying
the full current surface, so N mutations within one scheduler interval
produce N flushes, each a complete 1542-byte frame; only mmap page-dirty
requests coalesce via the deferred-io timer into one flush per interval. -/
theorem C1_each_mutation_flushes (mem : List Nat) (ops : List DrawOp)
    (h : ∀ op ∈ ops, drawMutation mem.length op) :
    (runOps mem ops).2.length = ops.length ∧
      ∀ fr ∈ (runOps mem ops).2,
        fr.length = 1542 ∧ fr.take 6 = [0xFE, 0x64, 0, 0, 192, 64] := by
  induction ops generalizing mem with
  | nil => exact ⟨rfl, by simp [runOps]⟩
  | cons op rest ih =>
    have hop := h op (List.mem_cons_self op rest)
    obtain ⟨hlen, hfl⟩ := applyOp_mutation mem op hop
    have hrest : ∀ o ∈ rest, drawMutation (applyOp mem op).1.length o := by
      intro o ho
      rw [hlen]
      exact h o (List.mem_cons_of_mem op ho)
    obtain ⟨ih1, ih2⟩ := ih (applyOp mem op).1 hrest
    constructor
    · simp [runOps, hfl, ih1]
    · intro fr hfr
      simp only [runOps, hfl, List.singleton_append, List.mem_cons] at hfr
      rcases hfr with hfr | hfr
      · subst hfr
        exact ⟨update_display_length _, update_display_take_6 _⟩
      · exact ih2 fr hfr

/-- Witness for C1 amended: one fillrect produces one full-frame flush. -/
theorem C1_each_mutation_flushes_witness :
    (runOps [] [DrawOp.fillrect id]).2.length = 1 ∧
      ∀ fr ∈ (runOps [] [DrawOp.fillrect id]).2,
        fr.length = 1542 ∧ fr.take 6 = [0xFE, 0x64, 0, 0, 192, 64] :=
  C1_each_mutation_flushes [] [DrawOp.fillrect id]
    (by
      intro op hop
      simp only [List.mem_singleton] at hop
      subst hop
      exact fun m => rfl)

/- ### Claim C3: burst decode of [0xC1, 0x42, 0x00] (corrected) -/

/-- C3 counterexample: the decode loop does not stop on reading 0x00 — it
never reads it.  0x42 has the continuation bit clear, so the tick consumes
only two responses, leaving the 0x00 unread (reading all three would give
a read count of 3). -/
theorem C3_counterexample :
    ¬ ((matrixorbital_keypad_poll [0xC1, 0x42, 0x00]).2.2 = 3) := by
  decide

/-- C3 amended: for the poll-response sequence [0xC1, 0x42, 0x00] the
poller emits exactly press(Escape), release(Escape), press(Up),
release(Up) in that order; after 0xC1 (continuation bit set) read_param is
repeated within the same tick, and the loop stops after processing 0x42
(continuation bit clear) without consuming the 0x00: exactly two reads
occur. -/
theorem C3_burst_decode :
    delivered (matrixorbital_keypad_poll [0xC1, 0x42, 0x00]).1 =
      [(KEY_ESC, true), (KEY_ESC, false), (KEY_UP, true), (KEY_UP, false)] ∧
      (matrixorbital_keypad_poll [0xC1, 0x42, 0x00]).2.1 = 0 ∧
      (matrixorbital_keypad_poll [0xC1, 0x42, 0x00]).2.2 = 2 ∧
      0xC1 &&& 0x80 ≠ 0 ∧ 0x42 &&& 0x80 = 0 := by
  decide

/- ### Claim C4: unknown key codes -/

/-- C4: a poll response whose low 7 bits are not in the translation table
produces one unknown-code diagnostic and no delivered key event (the raw
report carries keycode 0 = KEY_RESERVED, which is not in the registered
`keybit` set), and the loop continues or stops according to the
continuation bit of that response. -/
theorem C4_unknown_code (r : Nat) (rest : List Int) (hpos : 0 < r)
    (hun : (r &&& 0x7F) ∉ [0x41, 0x42, 0x43, 0x44, 0x45, 0x47, 0x48]) :
    (matrixorbital_report_key (r &&& 0x7F)).2 = 1 ∧
      delivered (matrixorbital_report_key (r &&& 0x7F)).1 = [] ∧
      (r &&& 0x80 ≠ 0 →
        delivered (matrixorbital_keypad_poll ((r : Int) :: rest)).1 =
          delivered (matrixorbital_keypad_poll rest).1 ∧
          (matrixorbital_keypad_poll ((r : Int) :: rest)).2.1 =
            1 + (matrixorbital_keypad_poll rest).2.1 ∧
          (matrixorbital_keypad_poll ((r : Int) :: rest)).2.2 =
            1 + (matrixorbital_keypad_poll rest).2.2) ∧
      (r &&& 0x80 = 0 →
        matrixorbital_keypad_poll ((r : Int) :: rest) =
          ((matrixorbital_report_key (r &&& 0x7F)).1, 1, 1)) := by
  have hk : matorb_keycode (r &&& 0x7F) = 0 := matorb_keycode_eq_zero _ hun
  have hrep : matrixorbital_report_key (r &&& 0x7F) =
      ([(0, true), (0, false)], 1) := by
    simp [matrixorbital_report_key, hk]
  have hdz : delivered [((0 : Nat), true), (0, false)] = [] := by decide
  have hpoll := keypad_poll_cons_pos r rest hpos
  refine ⟨by rw [hrep], by rw [hrep]; exact hdz, ?_, ?_⟩
  · intro hbit
    have hp1 : matrixorbital_keypad_poll ((r : Int) :: rest) =
        ([(0, true), (0, false)] ++ (matrixorbital_keypad_poll rest).1,
          1 + (matrixorbital_keypad_poll rest).2.1,
          1 + (matrixorbital_keypad_poll rest).2.2) := by
      rw [hpoll]
      simp only [hrep, if_pos hbit]
    rw [hp1]
    refine ⟨?_, rfl, rfl⟩
    rw [delivered, List.filter_append]
    have hf : List.filter (fun e => registered_keys.contains e.1)
        [((0 : Nat), true), (0, false)] = [] := by decide
    rw [hf, List.nil_append]
    rfl
  · intro hbit
    have hnbit : ¬ (r &&& 0x80 ≠ 0) := by simp [hbit]
    rw [hpoll]
    simp only [hrep, if_neg hnbit]

/-- Witness for C4 at poll value 0x50 (no continuation bit, unmapped). -/
theorem C4_unknown_code_witness :
    (matrixorbital_report_key (0x50 &&& 0x7F)).2 = 1 ∧
      delivered (matrixorbital_report_key (0x50 &&& 0x7F)).1 = [] ∧
      matrixorbital_keypad_poll [((0x50 : Nat) : Int)] =
        ((matrixorbital_report_key (0x50 &&& 0x7F)).1, 1, 1) := by
  have h := C4_unknown_code 0x50 [] (by decide) (by decide)
  exact ⟨h.1, h.2.1, h.2.2.2 (by decide)⟩

/- ### Claim C9: flush failures are invisible to drawing callers -/

/-- `matrixorbitalfb_fillrect` with the transport outcome explicit: the
frame send happens inside `matrixorbitalfb_update_display`, whose C return
type is void, so the `matrixorbital_write_array` status is discarded.
Result: (new video memory, discarded transport status, value returned to
the caller — `none`, since the fb_fillrect operation returns void). -/
def matrixorbitalfb_fillrect (f : List Nat → List Nat) (mem : List Nat)
    (sendRet : Int) : List Nat × Int × Option Int :=
  let mem2 := f mem
  (mem2,
    matrixorbital_write_array sendRet
      (matrixorbitalfb_update_display mem2).length,
    none)

/-- `matrixorbitalfb_copyarea`, same shape as fillrect. -/
def matrixorbitalfb_copyarea (f : List Nat → List Nat) (mem : List Nat)
    (sendRet : Int) : List Nat × Int × Option Int :=
  let mem2 := f mem
  (mem2,
    matrixorbital_write_array sendRet
      (matrixorbitalfb_update_display mem2).length,
    none)

/-- `matrixorbitalfb_imageblit`, same shape as fillrect. -/
def matrixorbitalfb_imageblit (f : List Nat → List Nat) (mem : List Nat)
    (sendRet : Int) : List Nat × Int × Option Int :=
  let mem2 := f mem
  (mem2,
    matrixorbital_write_array sendRet
      (matrixorbitalfb_update_display mem2).length,
    none)

/-- `matrixorbitalfb_write` with the transport outcome explicit: the
flush statuses are computed and discarded; the caller sees (new video
memory, byte count or negative errno), independent of `sendRet`. -/
def matrixorbitalfb_write_tx (mem : List Nat) (src : Nat → Nat)
    (p count : Nat) (sendRet : Int) : List Nat × Int :=
  let w := matrixorbitalfb_write mem src p count
  let _discarded :=
    w.2.2.map (fun fr => matrixorbital_write_array sendRet fr.length)
  (w.1, w.2.1)

/-- C9: for every drawing call, a failed transport write during the
resulting flush is invisible to the caller: fillrect/copyarea/imageblit
return void (`none`) whatever the transport outcome, the raw write's
return value is the same for any two transport outcomes, and a short send
really does produce a negative discarded status. -/
theorem C9_flush_error_invisible (f : List Nat → List Nat) (mem : List Nat)
    (src : Nat → Nat) (p count : Nat) (sendRet sendRet2 : Int) :
    (matrixorbitalfb_fillrect f mem sendRet).2.2 = none ∧
      (matrixorbitalfb_copyarea f mem sendRet).2.2 = none ∧
      (matrixorbitalfb_imageblit f mem sendRet).2.2 = none ∧
      matrixorbitalfb_write_tx mem src p count sendRet =
        matrixorbitalfb_write_tx mem src p count sendRet2 ∧
      (sendRet ≠ 1542 → (matrixorbitalfb_fillrect f mem sendRet).2.1 < 0) := by
  refine ⟨rfl, rfl, rfl, rfl, fun h => ?_⟩
  have hl : (matrixorbitalfb_update_display (f mem)).length = 1542 :=
    update_display_length _
  simp [matrixorbitalfb_fillrect, matrixorbital_write_array, hl, h]

/-- Witness for C9: a short send (0 acknowledged bytes) yields a negative
discarded status while the caller still sees void. -/
theorem C9_flush_error_invisible_witness :
    (matrixorbitalfb_fillrect id [] 0).2.1 < 0 :=
  (C9_flush_error_invisible id [] (fun _ => 0) 0 0 0 5).2.2.2.2 (by decide)
